import Mathlib

/-!
Verification development for the wyze-stream-analysis frontend core.

The definitions below are shallow embeddings of the TypeScript source:

* the people-count time-series aggregator lives in the App component
  (`handlePeopleCountChange`, `togglePeopleDetection`, `handleTabChange`);
* the connection manager's HLS fatal-error handler lives in
  `VideoPlayer.tsx` (the `Hls.Events.ERROR` subscription);
* the detection model loader, scheduler tick, post-processing filter and
  overlay renderer live in `PeopleDetection.tsx`.

Time is modelled in milliseconds as `Nat`; confidence scores as `ℚ`.
-/

set_option maxHeartbeats 1000000

namespace WyzeStream

/-- One stored point of the people-count series (interface
`PeopleDataPoint` of the App component: `timestamp` from `Date.now()`,
`count` from the detection callback). -/
structure PeopleDataPoint where
  timestamp : Nat
  count : Nat
deriving Repr, DecidableEq

/-- The functional update that `handlePeopleCountChange` applies to
`peopleCountHistory` when detection is enabled: if the last stored point is
within 50 ms of the incoming event (`Math.abs(now - lastPoint.timestamp) < 50`),
replace it; otherwise append, and when the appended series exceeds 300
points keep only the last 300 (`history.slice(-300)`). -/
def updateHistory (prev : List PeopleDataPoint) (now count : Nat) :
    List PeopleDataPoint :=
  let newPoint : PeopleDataPoint := { timestamp := now, count := count }
  match prev.getLast? with
  | some lastPoint =>
      if ((now : Int) - (lastPoint.timestamp : Int)).natAbs < 50 then
        prev.dropLast ++ [newPoint]
      else
        let history := prev ++ [newPoint]
        if history.length > 300 then history.drop (history.length - 300)
        else history
  | none =>
      let history := prev ++ [newPoint]
      if history.length > 300 then history.drop (history.length - 300)
      else history

/-- The same update with the 300-point capacity branch removed.  This is
the reference point for stating that the capped update differs from the
uncapped one only by dropping samples from the front (oldest end). -/
def updateHistoryNoEvict (prev : List PeopleDataPoint) (now count : Nat) :
    List PeopleDataPoint :=
  let newPoint : PeopleDataPoint := { timestamp := now, count := count }
  match prev.getLast? with
  | some lastPoint =>
      if ((now : Int) - (lastPoint.timestamp : Int)).natAbs < 50 then
        prev.dropLast ++ [newPoint]
      else prev ++ [newPoint]
  | none => prev ++ [newPoint]

/-- Fold a sequence of `(arrival time, count)` events through the
aggregator update, starting from the empty series. -/
def runHistory (evs : List (Nat × Nat)) : List PeopleDataPoint :=
  evs.foldl (fun h e => updateHistory h e.1 e.2) []

/-- Consecutive stored samples are at least 50 ms apart. -/
def GapChain (l : List PeopleDataPoint) : Prop :=
  l.Chain' (fun a b => a.timestamp + 50 ≤ b.timestamp)

/-- The App component state relevant to the aggregator: detection
enablement, current count, retained series and session identifier. -/
structure AppState where
  activeVideoId : String
  currentTime : Nat
  isPeopleDetectionEnabled : Bool
  peopleCount : Nat
  peopleCountHistory : List PeopleDataPoint
  detectionSessionId : String
deriving Repr, DecidableEq

/-- `handlePeopleCountChange(count)` at time `now`: always records the
latest count; appends to the series (via `updateHistory`) only while
detection is enabled. -/
def handlePeopleCountChange (s : AppState) (now count : Nat) : AppState :=
  let s1 := { s with peopleCount := count }
  if s1.isPeopleDetectionEnabled then
    { s1 with
      peopleCountHistory := updateHistory s1.peopleCountHistory now count }
  else s1

/-- `togglePeopleDetection` at time `now`: flips the flag; on the off→on
transition it creates a fresh session id (`'session_' + Date.now()`) and
clears the series; on the on→off transition it leaves both intact. -/
def togglePeopleDetection (s : AppState) (now : Nat) : AppState :=
  let newValue := !s.isPeopleDetectionEnabled
  if newValue then
    { s with
      isPeopleDetectionEnabled := newValue,
      detectionSessionId := "session_" ++ toString now,
      peopleCountHistory := [] }
  else { s with isPeopleDetectionEnabled := newValue }

/-- `handleTabChange(id)`: switches the active source, resets the playback
position and the count, disables detection and clears the series. -/
def handleTabChange (s : AppState) (id : String) : AppState :=
  { s with
    activeVideoId := id,
    currentTime := 0,
    isPeopleDetectionEnabled := false,
    peopleCount := 0,
    peopleCountHistory := [] }

lemma updateHistory_eq_some (prev : List PeopleDataPoint)
    (lp : PeopleDataPoint) (now c : Nat) (hgl : prev.getLast? = some lp) :
    updateHistory prev now c =
      if ((now : Int) - (lp.timestamp : Int)).natAbs < 50 then
        prev.dropLast ++ [{ timestamp := now, count := c }]
      else
        let history := prev ++ [{ timestamp := now, count := c }]
        if history.length > 300 then history.drop (history.length - 300)
        else history := by
  unfold updateHistory
  rw [hgl]

lemma updateHistory_eq_none (prev : List PeopleDataPoint) (now c : Nat)
    (hgl : prev.getLast? = none) :
    updateHistory prev now c = [{ timestamp := now, count := c }] := by
  have h0 : prev = [] := List.getLast?_eq_none_iff.mp hgl
  subst h0
  simp [updateHistory]

lemma updateHistoryNoEvict_eq_some (prev : List PeopleDataPoint)
    (lp : PeopleDataPoint) (now c : Nat) (hgl : prev.getLast? = some lp) :
    updateHistoryNoEvict prev now c =
      if ((now : Int) - (lp.timestamp : Int)).natAbs < 50 then
        prev.dropLast ++ [{ timestamp := now, count := c }]
      else prev ++ [{ timestamp := now, count := c }] := by
  unfold updateHistoryNoEvict
  rw [hgl]

lemma updateHistoryNoEvict_eq_none (prev : List PeopleDataPoint)
    (now c : Nat) (hgl : prev.getLast? = none) :
    updateHistoryNoEvict prev now c = [{ timestamp := now, count := c }] := by
  have h0 : prev = [] := List.getLast?_eq_none_iff.mp hgl
  subst h0
  simp [updateHistoryNoEvict]

lemma updateHistory_length_le (prev : List PeopleDataPoint) (now c : Nat)
    (h : prev.length ≤ 300) : (updateHistory prev now c).length ≤ 300 := by
  rcases hgl : prev.getLast? with _ | lp
  · rw [updateHistory_eq_none prev now c hgl]
    simp
  · rcases List.getLast?_eq_some_iff.mp hgl with ⟨ys, rfl⟩
    rw [updateHistory_eq_some _ lp now c hgl]
    simp only [List.length_append, List.length_singleton] at h
    split
    · simp
      omega
    · dsimp only
      split <;> rename_i hlen
      all_goals simp_all
      all_goals omega

lemma runHistory_aux_le (evs : List (Nat × Nat)) :
    ∀ (h : List PeopleDataPoint), h.length ≤ 300 →
      (evs.foldl (fun acc e => updateHistory acc e.1 e.2) h).length ≤ 300 := by
  induction evs with
  | nil => intro h hh; simpa using hh
  | cons e rest ih =>
      intro h hh
      exact ih _ (updateHistory_length_le _ _ _ hh)

/-- C5: after any sequence of count events the retained series holds at
most 300 samples, and the capped update only ever removes samples from
the front: its result is a suffix of the uncapped update, and agrees with
it whenever the uncapped result fits within the capacity. -/
theorem aggregator_capacity_and_front_eviction :
    (∀ evs : List (Nat × Nat), (runHistory evs).length ≤ 300) ∧
    (∀ (prev : List PeopleDataPoint) (now c : Nat),
        updateHistory prev now c <:+ updateHistoryNoEvict prev now c) ∧
    (∀ (prev : List PeopleDataPoint) (now c : Nat),
        (updateHistoryNoEvict prev now c).length ≤ 300 →
        updateHistory prev now c = updateHistoryNoEvict prev now c) := by
  refine ⟨fun evs => runHistory_aux_le evs [] (by simp), ?_, ?_⟩
  · intro prev now c
    rcases hgl : prev.getLast? with _ | lp
    · rw [updateHistory_eq_none prev now c hgl,
        updateHistoryNoEvict_eq_none prev now c hgl]
    · rw [updateHistory_eq_some prev lp now c hgl,
        updateHistoryNoEvict_eq_some prev lp now c hgl]
      split
      · exact List.suffix_refl _
      · dsimp only
        split
        · exact List.drop_suffix _ _
        · exact List.suffix_refl _
  · intro prev now c hlen
    rcases hgl : prev.getLast? with _ | lp
    · rw [updateHistory_eq_none prev now c hgl,
        updateHistoryNoEvict_eq_none prev now c hgl]
    · rw [updateHistoryNoEvict_eq_some prev lp now c hgl] at hlen
      rw [updateHistory_eq_some prev lp now c hgl,
        updateHistoryNoEvict_eq_some prev lp now c hgl]
      split
      · rfl
      · rename_i hge
        rw [if_neg hge] at hlen
        dsimp only
        rw [if_neg (by omega)]

/-- C5 witness: a concrete append within capacity is untouched by the
capacity branch. -/
theorem aggregator_capacity_and_front_eviction_witness :
    updateHistory [{ timestamp := 0, count := 1 }] 100 2 =
      updateHistoryNoEvict [{ timestamp := 0, count := 1 }] 100 2 :=
  aggregator_capacity_and_front_eviction.2.2
    [{ timestamp := 0, count := 1 }] 100 2 (by decide)

/-- C6: an incoming count event within 50 ms of the last stored sample
replaces that sample (final value wins); an event at least 50 ms later
(for example 200 ms later) is appended, so both samples persist. -/
theorem aggregator_dedup_window :
    (∀ (prev : List PeopleDataPoint) (lp : PeopleDataPoint) (now c : Nat),
        prev.getLast? = some lp →
        ((now : Int) - (lp.timestamp : Int)).natAbs < 50 →
        updateHistory prev now c =
          prev.dropLast ++ [{ timestamp := now, count := c }]) ∧
    (∀ (prev : List PeopleDataPoint) (lp : PeopleDataPoint) (now c : Nat),
        prev.getLast? = some lp →
        lp.timestamp + 50 ≤ now →
        prev.length < 300 →
        updateHistory prev now c =
          prev ++ [{ timestamp := now, count := c }]) := by
  constructor
  · intro prev lp now c hgl hlt
    rw [updateHistory_eq_some prev lp now c hgl, if_pos hlt]
  · intro prev lp now c hgl hge hlen
    rw [updateHistory_eq_some prev lp now c hgl, if_neg (by omega)]
    dsimp only
    rw [if_neg (by simp; omega)]

/-- C6 witness: an event 30 ms after the last sample replaces it; an
event 200 ms after the last sample is appended and both persist. -/
theorem aggregator_dedup_window_witness :
    updateHistory [{ timestamp := 1000, count := 3 }] 1030 5 =
      [{ timestamp := 1030, count := 5 }] ∧
    updateHistory [{ timestamp := 1000, count := 3 }] 1200 5 =
      [{ timestamp := 1000, count := 3 }, { timestamp := 1200, count := 5 }] := by
  constructor
  · have h := aggregator_dedup_window.1 [{ timestamp := 1000, count := 3 }]
      { timestamp := 1000, count := 3 } 1030 5 (by decide) (by decide)
    simpa using h
  · have h := aggregator_dedup_window.2 [{ timestamp := 1000, count := 3 }]
      { timestamp := 1000, count := 3 } 1200 5 (by decide) (by decide) (by decide)
    simpa using h

lemma updateHistory_getLast (prev : List PeopleDataPoint) (now c : Nat) :
    (updateHistory prev now c).getLast? =
      some { timestamp := now, count := c } := by
  rcases hgl : prev.getLast? with _ | lp
  · rw [updateHistory_eq_none prev now c hgl]
    rfl
  · rw [updateHistory_eq_some prev lp now c hgl]
    split
    · exact List.getLast?_concat _
    · dsimp only
      split
      · rename_i hlen
        rw [List.drop_append_of_le_length
          (by simp only [List.length_append, List.length_singleton] at hlen ⊢
              omega)]
        exact List.getLast?_concat _
      · exact List.getLast?_concat _

lemma updateHistory_gap (prev : List PeopleDataPoint) (now c : Nat)
    (hg : GapChain prev)
    (hb : ∀ lp, prev.getLast? = some lp → lp.timestamp ≤ now) :
    GapChain (updateHistory prev now c) := by
  rcases hgl : prev.getLast? with _ | lp
  · rw [updateHistory_eq_none prev now c hgl]
    exact List.chain'_singleton _
  · have hle := hb lp hgl
    rcases List.getLast?_eq_some_iff.mp hgl with ⟨ys, rfl⟩
    have hparts := List.chain'_append.mp hg
    rw [updateHistory_eq_some _ lp now c hgl]
    split
    · rename_i hlt
      rw [List.dropLast_concat]
      refine List.chain'_append.mpr
        ⟨hparts.1, List.chain'_singleton _, ?_⟩
      intro x hx y hy
      simp only [List.head?_cons, Option.mem_def, Option.some.injEq] at hy
      subst hy
      have hxlp := hparts.2.2 x hx lp (by simp)
      simp only at hxlp ⊢
      omega
    · rename_i hge
      have h50 : lp.timestamp + 50 ≤ now := by omega
      have happ : GapChain ((ys ++ [lp]) ++
          [({ timestamp := now, count := c } : PeopleDataPoint)]) := by
        refine List.chain'_append.mpr ⟨hg, List.chain'_singleton _, ?_⟩
        intro x hx y hy
        simp only [List.getLast?_concat, Option.mem_def,
          Option.some.injEq] at hx
        simp only [List.head?_cons, Option.mem_def, Option.some.injEq] at hy
        subst hx
        subst hy
        exact h50
      dsimp only
      split
      · exact happ.drop _
      · exact happ

lemma runHistory_aux_gap (evs : List (Nat × Nat)) :
    ∀ (h : List PeopleDataPoint),
      evs.Chain' (fun a b => a.1 ≤ b.1) →
      GapChain h →
      (∀ lp e, h.getLast? = some lp → evs.head? = some e →
        lp.timestamp ≤ e.1) →
      GapChain (evs.foldl (fun acc e => updateHistory acc e.1 e.2) h) := by
  induction evs with
  | nil => intro h _ hg _; simpa using hg
  | cons e rest ih =>
      intro h hch hg hb
      simp only [List.foldl_cons]
      refine ih _ hch.tail ?_ ?_
      · exact updateHistory_gap h e.1 e.2 hg
          (fun lp hlp => hb lp e hlp rfl)
      · intro lp e' hlp he'
        rw [updateHistory_getLast] at hlp
        cases hlp
        exact hch.rel_head? (by simp [he'])

/-- C10: for every event sequence with non-decreasing arrival times the
retained series has consecutive timestamps at least 50 ms apart (hence
strictly increasing), and a single update preserves the gap invariant
whenever the incoming time is no earlier than the stored last sample. -/
theorem aggregator_series_monotone_gapped :
    (∀ evs : List (Nat × Nat),
        evs.Chain' (fun a b => a.1 ≤ b.1) →
        GapChain (runHistory evs) ∧
        (runHistory evs).Chain' (fun a b => a.timestamp < b.timestamp)) ∧
    (∀ (prev : List PeopleDataPoint) (now c : Nat),
        GapChain prev →
        (∀ lp, prev.getLast? = some lp → lp.timestamp ≤ now) →
        GapChain (updateHistory prev now c)) := by
  constructor
  · intro evs hch
    have hg : GapChain (runHistory evs) := by
      refine runHistory_aux_gap evs [] hch List.chain'_nil ?_
      intro lp e hlp
      simp at hlp
    exact ⟨hg, hg.imp (fun a b hab => by omega)⟩
  · exact updateHistory_gap

/-- C10 witness: three concrete events with non-decreasing times (the
middle one inside the jitter window) yield a gapped, sorted series. -/
theorem aggregator_series_monotone_gapped_witness :
    GapChain (runHistory [(0, 1), (30, 2), (100, 0)]) ∧
    (runHistory [(0, 1), (30, 2), (100, 0)]).Chain'
      (fun a b => a.timestamp < b.timestamp) :=
  aggregator_series_monotone_gapped.1 [(0, 1), (30, 2), (100, 0)]
    (by norm_num [List.chain'_cons, List.chain'_singleton])

/-- C3 as stated is false on the code: switching the video source
(`handleTabChange`) clears the retained series while detection is
disabled, and it does so without creating a new detection session — the
session identifier is unchanged and no off→on transition occurs. -/
theorem source_switch_clears_series_without_new_session :
    ({ activeVideoId := "football", currentTime := 7,
       isPeopleDetectionEnabled := false, peopleCount := 2,
       peopleCountHistory := [{ timestamp := 0, count := 2 }],
       detectionSessionId := "initial" } : AppState).peopleCountHistory ≠ [] ∧
    (handleTabChange
      { activeVideoId := "football", currentTime := 7,
        isPeopleDetectionEnabled := false, peopleCount := 2,
        peopleCountHistory := [{ timestamp := 0, count := 2 }],
        detectionSessionId := "initial" } "cam2").peopleCountHistory = [] ∧
    (handleTabChange
      { activeVideoId := "football", currentTime := 7,
        isPeopleDetectionEnabled := false, peopleCount := 2,
        peopleCountHistory := [{ timestamp := 0, count := 2 }],
        detectionSessionId := "initial" } "cam2").detectionSessionId =
      "initial" ∧
    (handleTabChange
      { activeVideoId := "football", currentTime := 7,
        isPeopleDetectionEnabled := false, peopleCount := 2,
        peopleCountHistory := [{ timestamp := 0, count := 2 }],
        detectionSessionId := "initial" } "cam2").isPeopleDetectionEnabled =
      false := by
  refine ⟨by decide, ?_, ?_, ?_⟩ <;> rfl

/-- C3 (amended): while detection is disabled, count events leave the
series and session untouched; toggling detection off preserves both;
toggling it on clears the series under a fresh session identifier; and,
in addition to the off→on transition, switching the video source clears
the series (and disables detection) while keeping the old session id;
disabling then re-enabling restarts the series empty in a new session. -/
theorem detection_session_series_lifecycle :
    (∀ (s : AppState) (now c : Nat), s.isPeopleDetectionEnabled = false →
        (handlePeopleCountChange s now c).peopleCountHistory =
          s.peopleCountHistory ∧
        (handlePeopleCountChange s now c).detectionSessionId =
          s.detectionSessionId) ∧
    (∀ (s : AppState) (now : Nat), s.isPeopleDetectionEnabled = true →
        (togglePeopleDetection s now).peopleCountHistory =
          s.peopleCountHistory ∧
        (togglePeopleDetection s now).detectionSessionId =
          s.detectionSessionId ∧
        (togglePeopleDetection s now).isPeopleDetectionEnabled = false) ∧
    (∀ (s : AppState) (now : Nat), s.isPeopleDetectionEnabled = false →
        (togglePeopleDetection s now).peopleCountHistory = [] ∧
        (togglePeopleDetection s now).detectionSessionId =
          "session_" ++ toString now ∧
        (togglePeopleDetection s now).isPeopleDetectionEnabled = true) ∧
    (∀ (s : AppState) (id : String),
        (handleTabChange s id).peopleCountHistory = [] ∧
        (handleTabChange s id).detectionSessionId = s.detectionSessionId ∧
        (handleTabChange s id).isPeopleDetectionEnabled = false) ∧
    (∀ (s : AppState) (t1 t2 : Nat), s.isPeopleDetectionEnabled = true →
        (togglePeopleDetection (togglePeopleDetection s t1)
            t2).peopleCountHistory = [] ∧
        (togglePeopleDetection (togglePeopleDetection s t1)
            t2).detectionSessionId = "session_" ++ toString t2 ∧
        (togglePeopleDetection (togglePeopleDetection s t1)
            t2).isPeopleDetectionEnabled = true) := by
  refine ⟨?_, ?_, ?_, ?_, ?_⟩
  · intro s now c hs
    simp [handlePeopleCountChange, hs]
  · intro s now hs
    simp [togglePeopleDetection, hs]
  · intro s now hs
    simp [togglePeopleDetection, hs]
  · intro s id
    simp [handleTabChange]
  · intro s t1 t2 hs
    simp [togglePeopleDetection, hs]

/-- C3 witness: accumulate samples in an enabled session, toggle off,
toggle back on — the series is empty under the fresh session id. -/
theorem detection_session_series_lifecycle_witness :
    (togglePeopleDetection (togglePeopleDetection
        { activeVideoId := "cam1", currentTime := 0,
          isPeopleDetectionEnabled := true, peopleCount := 4,
          peopleCountHistory :=
            [{ timestamp := 0, count := 1 }, { timestamp := 60, count := 4 }],
          detectionSessionId := "session_0" } 500) 900).peopleCountHistory =
      [] ∧
    (togglePeopleDetection (togglePeopleDetection
        { activeVideoId := "cam1", currentTime := 0,
          isPeopleDetectionEnabled := true, peopleCount := 4,
          peopleCountHistory :=
            [{ timestamp := 0, count := 1 }, { timestamp := 60, count := 4 }],
          detectionSessionId := "session_0" } 500) 900).detectionSessionId =
      "session_" ++ toString 900 ∧
    (togglePeopleDetection (togglePeopleDetection
        { activeVideoId := "cam1", currentTime := 0,
          isPeopleDetectionEnabled := true, peopleCount := 4,
          peopleCountHistory :=
            [{ timestamp := 0, count := 1 }, { timestamp := 60, count := 4 }],
          detectionSessionId := "session_0" } 500) 900).isPeopleDetectionEnabled =
      true :=
  detection_session_series_lifecycle.2.2.2.2
    { activeVideoId := "cam1", currentTime := 0,
      isPeopleDetectionEnabled := true, peopleCount := 4,
      peopleCountHistory :=
        [{ timestamp := 0, count := 1 }, { timestamp := 60, count := 4 }],
      detectionSessionId := "session_0" } 500 900 rfl

/-- The error categories reported by the adaptive-streaming decoder
(`Hls.ErrorTypes`); every type other than network and media falls into the
default branch of the handler. -/
inductive HlsErrorType
  | networkError
  | mediaError
  | otherError
deriving Repr, DecidableEq

/-- The HTTP response attached to a decoder error event, when present
(`data.response`); `code` is absent when the response carries no status. -/
structure HlsResponse where
  code : Option Nat
deriving Repr, DecidableEq

/-- One `Hls.Events.ERROR` event payload: error type, fatality flag,
optional HTTP response, and the decoder's raw internal reason text (which
the handler never surfaces to the user). -/
structure HlsErrorData where
  type : HlsErrorType
  fatal : Bool
  response : Option HlsResponse
  reason : String
deriving Repr, DecidableEq

/-- The message built from the HTTP response at the top of the handler:
403 and 404 get substituted friendly texts, any other truthy code a
generic HTTP text, otherwise the initial fallback text. -/
def httpErrorMessage (response : Option HlsResponse) : String :=
  match response with
  | none => "Failed to load stream"
  | some r =>
      match r.code with
      | none => "Failed to load stream"
      | some c =>
          if c = 403 then
            "Access denied (403 Forbidden). This stream requires authorization or is not publicly accessible."
          else if c = 404 then
            "Stream not found (404). The URL may be incorrect."
          else if c ≠ 0 then "HTTP error " ++ toString c
          else "Failed to load stream"

/-- The guard `!data.response || data.response.code !== 403` of the
network-error branch, negated: the event is an HTTP 403 access denial. -/
def isAccessDenial (d : HlsErrorData) : Bool :=
  match d.response with
  | none => false
  | some r => r.code = some 403

/-- The VideoPlayer connection state touched by the error handler:
classification label (`error`), human-readable detail (`errorDetails`),
and whether the decoder instance is still alive (not destroyed). -/
structure PlayerState where
  error : Option String
  errorDetails : Option String
  hlsAlive : Bool
deriving Repr, DecidableEq

/-- State before any error: no error shown, decoder attached. -/
def initialPlayerState : PlayerState :=
  { error := none, errorDetails := none, hlsAlive := true }

/-- Imperative calls the handler makes on the decoder instance. -/
inductive HlsCall
  | startLoad
  | recoverMediaError
  | destroy
deriving Repr, DecidableEq

/-- The `Hls.Events.ERROR` handler of `VideoPlayer.tsx`: on a fatal
network error it calls `hls.startLoad()` unless the failure is an HTTP
403, in which case it sets the access-denial error state and destroys the
decoder; on a fatal media error it calls `hls.recoverMediaError()`; on
any other fatal error it sets a generic error state and destroys the
decoder; non-fatal events change nothing. -/
def handleHlsError (s : PlayerState) (d : HlsErrorData) :
    PlayerState × List HlsCall :=
  let errorMessage := httpErrorMessage d.response
  if d.fatal then
    match d.type with
    | HlsErrorType.networkError =>
        let msg := "Network error: " ++ errorMessage
        if !(isAccessDenial d) then (s, [HlsCall.startLoad])
        else
          ({ s with
              error := some ("Stream Access Error"),
              errorDetails := some msg,
              hlsAlive := false }, [HlsCall.destroy])
    | HlsErrorType.mediaError => (s, [HlsCall.recoverMediaError])
    | HlsErrorType.otherError =>
        ({ s with
            error := some ("Stream Error"),
            errorDetails := some errorMessage,
            hlsAlive := false }, [HlsCall.destroy])
  else (s, [])

/-- Run a sequence of decoder error events through the handler,
accumulating every decoder call made along the way. -/
def runHlsEvents (s : PlayerState) (events : List HlsErrorData) :
    PlayerState × List HlsCall :=
  events.foldl
    (fun acc d =>
      let r := handleHlsError acc.1 d
      (r.1, acc.2 ++ r.2))
    (s, [])

/-- A fatal network error with HTTP status 500 — a transient failure that
is not an access denial. -/
def fatalNet500 : HlsErrorData :=
  { type := HlsErrorType.networkError, fatal := true,
    response := some { code := some 500 },
    reason := "segment request failed" }

/-- C1: the code contradicts the claim (and its own inline comment
"Try to reload once"): when a fatal non-403 network error occurs and the
triggered reload fails again with another fatal network error, the
handler issues a second `startLoad` rather than stopping at one retry,
and no `Error` state is ever set — the state after two consecutive fatal
HTTP-500 network failures is unchanged, with two reload calls issued. -/
theorem network_error_retries_unbounded :
    runHlsEvents initialPlayerState [fatalNet500, fatalNet500] =
      (initialPlayerState, [HlsCall.startLoad, HlsCall.startLoad]) ∧
    (runHlsEvents initialPlayerState [fatalNet500, fatalNet500]).1.error =
      none := by
  constructor <;> rfl

/-- C2: a fatal network error whose HTTP status is 403 immediately sets
the terminal access-denial classification with the substituted friendly
detail text (independent of the decoder's raw internal reason), destroys
the decoder, and issues no reload. -/
theorem access_denial_terminal_no_reload :
    ∀ (s : PlayerState) (reason : String),
      handleHlsError s
        { type := HlsErrorType.networkError, fatal := true,
          response := some { code := some 403 }, reason := reason } =
      ({ s with
          error := some ("Stream Access Error"),
          errorDetails := some
            ("Network error: Access denied (403 Forbidden). This stream requires authorization or is not publicly accessible."),
          hlsAlive := false }, [HlsCall.destroy]) := by
  intro s reason
  rfl

/-- The inference backends `initTensorFlowAndLoadModel` may attempt, in
order: the GPU-accelerated `webgl` backend first, then the `cpu`
fallback. -/
inductive Backend
  | webgl
  | cpu
deriving Repr, DecidableEq

/-- The outcome of one model-load attempt sequence: the primary (WebGL)
load succeeds; or it fails with some error message and the CPU fallback
succeeds; or both fail. Messages are optional because the thrown value
may carry no `.message`. -/
inductive LoadOutcome
  | primaryOk
  | fallbackOk (primaryErr : Option String)
  | bothFail (primaryErr fallbackErr : Option String)
deriving Repr, DecidableEq

/-- The PeopleDetection component state written by the model-load effect:
whether a model instance is resident, the loading flag, and the surfaced
load-error text. -/
structure DetModelState where
  model : Bool
  isLoading : Bool
  modelLoadError : Option String
deriving Repr, DecidableEq

/-- Component state on mount: no model, loading flag initially true, no
error. -/
def initialDetModelState : DetModelState :=
  { model := false, isLoading := true, modelLoadError := none }

/-- `initTensorFlowAndLoadModel` (with the component still mounted
throughout): sets loading and clears the error, attempts the WebGL
backend; on failure records the primary error then falls back once to the
CPU backend; a successful fallback clears the error again, a failed
fallback leaves the fallback error surfaced and no model resident.
Returns the new state and the list of backends attempted. -/
def initTensorFlowAndLoadModel (s : DetModelState) (o : LoadOutcome) :
    DetModelState × List Backend :=
  match o with
  | LoadOutcome.primaryOk =>
      ({ s with model := true, isLoading := false, modelLoadError := none },
        [Backend.webgl])
  | LoadOutcome.fallbackOk _ =>
      ({ s with model := true, isLoading := false, modelLoadError := none },
        [Backend.webgl, Backend.cpu])
  | LoadOutcome.bothFail _ fErr =>
      ({ s with
          model := s.model,
          isLoading := false,
          modelLoadError :=
            some (fErr.getD ("Failed to load detection model with fallback")) },
        [Backend.webgl, Backend.cpu])

/-- The model-load effect body, run on every change of `isEnabled`:
`if (isEnabled) initTensorFlowAndLoadModel()` — it is keyed only on the
enablement flag, never on whether a model is already resident. -/
def modelLoadEffect (s : DetModelState) (isEnabled : Bool)
    (o : LoadOutcome) : DetModelState × List Backend :=
  if isEnabled then initTensorFlowAndLoadModel s o else (s, [])

/-- The guard of the detection-loop effect
(`if (!model || !isEnabled || !videoRef.current) return`): the polling
loop starts only when a model is resident and detection is enabled. -/
def detectionLoopStarts (s : DetModelState) (isEnabled : Bool) : Bool :=
  s.model && isEnabled

/-- The load-error badge is rendered when a load error is surfaced while
detection is enabled (`modelLoadError && isEnabled`). -/
def rendersLoadFailure (s : DetModelState) (isEnabled : Bool) : Bool :=
  s.modelLoadError.isSome && isEnabled

/-- C4 fails as stated on its last part: after a completed enable cycle
leaves a model resident, disabling and re-enabling detection runs
`initTensorFlowAndLoadModel` again — the effect is keyed on `isEnabled`
alone and attempts a fresh WebGL load although `model` is already set. -/
theorem reenable_retriggers_model_load :
    (modelLoadEffect initialDetModelState true
        LoadOutcome.primaryOk).1.model = true ∧
    (modelLoadEffect
        (modelLoadEffect initialDetModelState true
          LoadOutcome.primaryOk).1 false LoadOutcome.primaryOk).1.model =
      true ∧
    (modelLoadEffect
        (modelLoadEffect
          (modelLoadEffect initialDetModelState true
            LoadOutcome.primaryOk).1 false LoadOutcome.primaryOk).1 true
        LoadOutcome.primaryOk).2 = [Backend.webgl] := by
  refine ⟨rfl, rfl, rfl⟩

/-- C4 (amended): loading attempts the WebGL backend first and falls back
at most once to the CPU backend (exactly when the primary attempt fails);
if both fail, a visible load-error state is surfaced and the polling loop
does not start; while detection is disabled the effect does nothing; but
every off→on transition re-runs the load even when a model is already
resident. -/
theorem model_load_fallback_and_enable_keyed :
    (∀ (s : DetModelState) (o : LoadOutcome),
        (initTensorFlowAndLoadModel s o).2.head? = some Backend.webgl ∧
        (initTensorFlowAndLoadModel s o).2.count Backend.cpu ≤ 1 ∧
        (o = LoadOutcome.primaryOk →
          (initTensorFlowAndLoadModel s o).2 = [Backend.webgl]) ∧
        (o ≠ LoadOutcome.primaryOk →
          (initTensorFlowAndLoadModel s o).2 =
            [Backend.webgl, Backend.cpu])) ∧
    (∀ (s : DetModelState) (e1 e2 : Option String),
        s.model = false →
        (initTensorFlowAndLoadModel s
            (LoadOutcome.bothFail e1 e2)).1.modelLoadError.isSome = true ∧
        rendersLoadFailure
          (initTensorFlowAndLoadModel s (LoadOutcome.bothFail e1 e2)).1
          true = true ∧
        detectionLoopStarts
          (initTensorFlowAndLoadModel s (LoadOutcome.bothFail e1 e2)).1
          true = false) ∧
    (∀ (s : DetModelState) (o : LoadOutcome),
        modelLoadEffect s false o = (s, [])) ∧
    (∀ (s : DetModelState) (o : LoadOutcome),
        s.model = true →
        (modelLoadEffect s true o).2.head? = some Backend.webgl) := by
  refine ⟨?_, ?_, ?_, ?_⟩
  · intro s o
    cases o <;> simp [initTensorFlowAndLoadModel]
  · intro s e1 e2 hm
    simp [initTensorFlowAndLoadModel, rendersLoadFailure,
      detectionLoopStarts, hm]
  · intro s o
    rfl
  · intro s o hm
    cases o <;> simp [modelLoadEffect, initTensorFlowAndLoadModel]

/-- C4 witness: with both backends failing on a fresh mount, the error is
surfaced and the loop does not start; a resident model still leads to a
fresh WebGL attempt on re-enable. -/
theorem model_load_fallback_and_enable_keyed_witness :
    (initTensorFlowAndLoadModel initialDetModelState
        (LoadOutcome.bothFail none none)).1.modelLoadError.isSome = true ∧
    detectionLoopStarts
      (initTensorFlowAndLoadModel initialDetModelState
        (LoadOutcome.bothFail none none)).1 true = false ∧
    (modelLoadEffect
        { model := true, isLoading := false, modelLoadError := none } true
        LoadOutcome.primaryOk).2.head? = some Backend.webgl :=
  ⟨(model_load_fallback_and_enable_keyed.2.1 initialDetModelState none none
      rfl).1,
   (model_load_fallback_and_enable_keyed.2.1 initialDetModelState none none
      rfl).2.2,
   model_load_fallback_and_enable_keyed.2.2.2
      { model := true, isLoading := false, modelLoadError := none }
      LoadOutcome.primaryOk rfl⟩

/-- A raw model prediction: bounding box `(x, y, width, height)` in
source-native pixels, class label (`class` in the source, a reserved word
here), and confidence score. -/
structure Prediction where
  bbox : ℚ × ℚ × ℚ × ℚ
  cls : String
  score : ℚ
deriving Repr, DecidableEq

/-- The post-processing filter of `detectPeople`:
`predictions.filter(pred => pred.class === 'person' && pred.score > 0.5)`. -/
def filterPeople (preds : List Prediction) : List Prediction :=
  preds.filter (fun p => decide (p.cls = "person" ∧ (1 : ℚ)/2 < p.score))

/-- The video-element fields read by one tick of `detectPeople`. -/
structure VideoState where
  readyState : Nat
  paused : Bool
  ended : Bool
  currentTime : ℚ
deriving Repr, DecidableEq

/-- `!video.paused && !video.ended && video.currentTime > 0`. -/
def isActivelyPlaying (v : VideoState) : Bool :=
  !v.paused && !v.ended && decide ((0 : ℚ) < v.currentTime)

/-- The observable events of one tick, in program order:
`inferStart`/`inferEnd` bracket the awaited `model.detect` call;
`scheduleFrame` is the immediate `requestAnimationFrame` reschedule of
the not-ready branch; `scheduleThrottled` is the
`setTimeout(..., 500)`-delayed reschedule at the end of a ready tick. -/
inductive TickEvent
  | inferStart
  | inferEnd
  | scheduleFrame
  | scheduleThrottled
deriving Repr, DecidableEq

/-- One tick of `detectPeople`: if the video is not decode-ready
(`readyState !== 4`), reschedule on the next animation frame without
inference; otherwise run (and await) one inference call exactly when the
video is actively playing, then schedule the next tick after the 500 ms
throttle. -/
def tickTrace (v : VideoState) : List TickEvent :=
  if v.readyState ≠ 4 then [TickEvent.scheduleFrame]
  else if isActivelyPlaying v then
    [TickEvent.inferStart, TickEvent.inferEnd, TickEvent.scheduleThrottled]
  else [TickEvent.scheduleThrottled]

/-- A sequence of ticks within one detection session: each tick begins
only after the previous one finished (the loop is re-entered only through
the reschedule at the end of the prior tick). -/
def runTrace (vs : List VideoState) : List TickEvent :=
  (vs.map tickTrace).flatten

/-- Checks that, starting from `n` in-flight inference calls, a new call
only ever starts when none is outstanding and every start is matched
before the count is consulted again — the single-flight discipline. -/
def singleFlightFrom : List TickEvent → Nat → Bool
  | [], _ => true
  | TickEvent.inferStart :: rest, n =>
      n == 0 && singleFlightFrom rest (n + 1)
  | TickEvent.inferEnd :: rest, n =>
      decide (0 < n) && singleFlightFrom rest (n - 1)
  | TickEvent.scheduleFrame :: rest, n => singleFlightFrom rest n
  | TickEvent.scheduleThrottled :: rest, n => singleFlightFrom rest n

lemma singleFlightFrom_tick (v : VideoState) (t : List TickEvent) :
    singleFlightFrom (tickTrace v ++ t) 0 = singleFlightFrom t 0 := by
  unfold tickTrace
  split
  · simp [singleFlightFrom]
  · split
    · simp [singleFlightFrom]
    · simp [singleFlightFrom]

lemma singleFlightFrom_run (vs : List VideoState) :
    singleFlightFrom (runTrace vs) 0 = true := by
  induction vs with
  | nil => rfl
  | cons v rest ih =>
      simp only [runTrace, List.map_cons, List.flatten_cons]
      rw [singleFlightFrom_tick]
      exact ih

/-- C7: within one session the scheduler is single-flight — over any
sequence of ticks, a new inference call starts only after the previous
one has resolved; a tick calls inference exactly when the video is
decode-ready and actively playing (not paused, not ended, position > 0),
in which case the next tick is scheduled only after the 500 ms throttle;
otherwise the tick reschedules without calling inference. -/
theorem scheduler_single_flight_and_gating :
    (∀ vs : List VideoState, singleFlightFrom (runTrace vs) 0 = true) ∧
    (∀ v : VideoState,
        (TickEvent.inferStart ∈ tickTrace v ↔
          v.readyState = 4 ∧ isActivelyPlaying v = true) ∧
        (v.readyState = 4 → isActivelyPlaying v = true →
          tickTrace v =
            [TickEvent.inferStart, TickEvent.inferEnd,
              TickEvent.scheduleThrottled]) ∧
        (v.readyState ≠ 4 → tickTrace v = [TickEvent.scheduleFrame]) ∧
        (v.readyState = 4 → isActivelyPlaying v = false →
          tickTrace v = [TickEvent.scheduleThrottled])) := by
  refine ⟨singleFlightFrom_run, ?_⟩
  intro v
  by_cases h4 : v.readyState = 4
  · cases hap : isActivelyPlaying v <;>
      simp [tickTrace, h4, hap]
  · simp [tickTrace, h4]

/-- C7 witness: a paused-then-playing run is single-flight; the concrete
gating facts at a not-ready, a playing, and a paused video state. -/
theorem scheduler_single_flight_and_gating_witness :
    singleFlightFrom (runTrace
      [{ readyState := 1, paused := true, ended := false, currentTime := 0 },
       { readyState := 4, paused := true, ended := false, currentTime := 0 },
       { readyState := 4, paused := false, ended := false,
         currentTime := 7 }]) 0 = true ∧
    tickTrace
      { readyState := 1, paused := true, ended := false,
        currentTime := 0 } = [TickEvent.scheduleFrame] ∧
    tickTrace
      { readyState := 4, paused := true, ended := false,
        currentTime := 0 } = [TickEvent.scheduleThrottled] ∧
    tickTrace
      { readyState := 4, paused := false, ended := false,
        currentTime := 7 } =
      [TickEvent.inferStart, TickEvent.inferEnd,
        TickEvent.scheduleThrottled] :=
  ⟨scheduler_single_flight_and_gating.1 _,
   (scheduler_single_flight_and_gating.2 _).2.2.1 (by decide),
   (scheduler_single_flight_and_gating.2 _).2.2.2 rfl (by decide),
   (scheduler_single_flight_and_gating.2 _).2.1 rfl (by decide)⟩

/-- The primitive draw calls `drawDetections` issues per detection: the
scaled bounding box, the centroid marker, and the `Person N%` label. -/
inductive DrawOp
  | box (x y w h : ℚ)
  | centroid (cx cy : ℚ)
  | label (text : String) (x y : ℚ)
deriving Repr, DecidableEq

/-- The draw calls for one detection, scaled from source-native pixels
into canvas coordinates. -/
def drawDetection (scaleX scaleY : ℚ) (d : Prediction) : List DrawOp :=
  let scaledX := d.bbox.1 * scaleX
  let scaledY := d.bbox.2.1 * scaleY
  let scaledWidth := d.bbox.2.2.1 * scaleX
  let scaledHeight := d.bbox.2.2.2 * scaleY
  [DrawOp.box scaledX scaledY scaledWidth scaledHeight,
   DrawOp.centroid (scaledX + scaledWidth / 2) (scaledY + scaledHeight / 2),
   DrawOp.label
     ("Person " ++ toString (round (d.score * 100)) ++ "%")
     scaledX (scaledY - 5)]

/-- `drawDetections`: clear the surface, then, only if the overlay is
visible, draw every detection.  The result is the canvas content after
the call. -/
def drawDetections (showOverlay : Bool) (scaleX scaleY : ℚ)
    (dets : List Prediction) : List DrawOp :=
  if showOverlay then dets.flatMap (drawDetection scaleX scaleY) else []

/-- The outputs of a tick that runs inference: the detections stored in
state, the count reported to the count listener, and the overlay draw
calls — all derived from the filtered predictions. -/
def detectTickOutputs (preds : List Prediction) (showOverlay : Bool)
    (scaleX scaleY : ℚ) : List Prediction × Nat × List DrawOp :=
  let peopleDetections := filterPeople preds
  (peopleDetections, peopleDetections.length,
    drawDetections showOverlay scaleX scaleY peopleDetections)

/-- C8: a raw detection that is not of class person, or whose confidence
is not above the 0.5 threshold, never passes the filter, hence never
reaches the stored detections; the reported count and the draw calls are
computed from the filtered list alone, whose members are all
above-threshold person detections. -/
theorem below_threshold_never_drawn_nor_counted :
    ∀ (preds : List Prediction) (p : Prediction) (showOverlay : Bool)
      (scaleX scaleY : ℚ),
      ((¬p.cls = "person" ∨ p.score ≤ (1 : ℚ)/2) →
        p ∉ filterPeople preds ∧
        p ∉ (detectTickOutputs preds showOverlay scaleX scaleY).1) ∧
      (∀ q ∈ filterPeople preds,
        q.cls = "person" ∧ (1 : ℚ)/2 < q.score) ∧
      (detectTickOutputs preds showOverlay scaleX scaleY).2.1 =
        (filterPeople preds).length ∧
      (detectTickOutputs preds showOverlay scaleX scaleY).2.2 =
        drawDetections showOverlay scaleX scaleY (filterPeople preds) := by
  intro preds p showOverlay scaleX scaleY
  refine ⟨?_, ?_, rfl, rfl⟩
  · intro hbad
    have hnot : p ∉ filterPeople preds := by
      intro hmem
      have := List.of_mem_filter hmem
      simp only [decide_eq_true_eq] at this
      rcases hbad with hb | hb
      · exact hb this.1
      · exact absurd this.2 (not_lt.mpr hb)
    exact ⟨hnot, hnot⟩
  · intro q hq
    have := List.of_mem_filter hq
    simpa using this

/-- C8 witness: a cat detection and a low-confidence person are filtered
out; only the high-confidence person is stored, counted, and drawn. -/
theorem below_threshold_never_drawn_nor_counted_witness :
    ({ bbox := (0, 0, 10, 10), cls := "person", score := (3 : ℚ)/10 } :
        Prediction) ∉
      filterPeople
        [{ bbox := (0, 0, 10, 10), cls := "person", score := (3 : ℚ)/10 },
         { bbox := (1, 1, 5, 5), cls := "person", score := (9 : ℚ)/10 }] ∧
    (detectTickOutputs
        [{ bbox := (0, 0, 10, 10), cls := "person", score := (3 : ℚ)/10 },
         { bbox := (1, 1, 5, 5), cls := "person", score := (9 : ℚ)/10 }]
        true 1 1).2.1 =
      (filterPeople
        [{ bbox := (0, 0, 10, 10), cls := "person", score := (3 : ℚ)/10 },
         { bbox := (1, 1, 5, 5), cls := "person", score := (9 : ℚ)/10 }]).length :=
  ⟨((below_threshold_never_drawn_nor_counted
      [{ bbox := (0, 0, 10, 10), cls := "person", score := (3 : ℚ)/10 },
       { bbox := (1, 1, 5, 5), cls := "person", score := (9 : ℚ)/10 }]
      { bbox := (0, 0, 10, 10), cls := "person", score := (3 : ℚ)/10 }
      true 1 1).1 (Or.inr (by norm_num))).1,
   (below_threshold_never_drawn_nor_counted
      [{ bbox := (0, 0, 10, 10), cls := "person", score := (3 : ℚ)/10 },
       { bbox := (1, 1, 5, 5), cls := "person", score := (9 : ℚ)/10 }]
      { bbox := (0, 0, 10, 10), cls := "person", score := (3 : ℚ)/10 }
      true 1 1).2.2.1⟩

/-- The overlay-visibility effect: when detection or the overlay is
toggled off the canvas is cleared; when both are on and a last detection
set exists it is redrawn immediately; otherwise the canvas is left as it
is. -/
def overlayVisibilityEffect (isEnabled showOverlay : Bool)
    (dets : List Prediction) (scaleX scaleY : ℚ) (canvas : List DrawOp) :
    List DrawOp :=
  if !isEnabled || !showOverlay then []
  else if isEnabled && showOverlay && decide (0 < dets.length) then
    drawDetections showOverlay scaleX scaleY dets
  else canvas

/-- C9: toggling the overlay off clears the canvas and leaves it blank;
toggling it back on with the same last detection set redraws exactly that
set — one box, one centroid and one label per detection, no detection
lost and none duplicated. -/
theorem overlay_toggle_redraws_last_detections :
    ∀ (dets : List Prediction) (scaleX scaleY : ℚ) (canvas : List DrawOp),
      overlayVisibilityEffect true false dets scaleX scaleY canvas = [] ∧
      overlayVisibilityEffect true true dets scaleX scaleY
          (overlayVisibilityEffect true false dets scaleX scaleY canvas) =
        dets.flatMap (drawDetection scaleX scaleY) := by
  intro dets scaleX scaleY canvas
  cases dets <;>
    simp [overlayVisibilityEffect, drawDetections]

end WyzeStream
